import Mathlib

/-!
Verification development for the chart-engine service
(`src/chart-engine/main.py`): the indicator-computation and
panel-layout core (`add_indicators` and the layout portion of
`generate_chart`).

Modelling conventions:
* pandas Series values are modelled over `ℚ` (exact arithmetic); `NaN`
  entries are modelled as `none` in `List (Option ℚ)`.  Float literals of
  the source (such as the `1e-10` epsilon) are modelled by the exact
  rational they denote up to rounding; no claim depends on the rounding.
* `mpf.make_addplot(...)` returns a plain Python `dict`; the `Plot`
  structure below records the entries of that dict (`panel`, the plotted
  data, and a bookkeeping label for the column name).  Crucially, a
  `dict` instance carries no Python *attributes*, so
  `getattr(plot, 'name', '')` always yields `''` and
  `hasattr(plot, 'panel')` is always `False`; these two lookup results
  are modelled by `plotNameAttr` and `plotPanelAttr`.
-/

set_option maxRecDepth 4000

namespace ChartEngine

/-- One OHLCV bar (`OHLCVData`); the datetime column is irrelevant to the
    indicator and layout computations and is omitted. -/
structure Bar where
  open_ : ℚ
  high : ℚ
  low : ℚ
  close : ℚ
  volume : ℚ
deriving DecidableEq

/-- The per-indicator parameter mapping.  `params.get(key, default)` is
    modelled by `Option.getD`; unknown keys of the source mapping are simply
    never read, matching `dict.get`. -/
structure IndParams where
  period : Option ℕ := none
  fast : Option ℕ := none
  slow : Option ℕ := none
  signal : Option ℕ := none
  k_period : Option ℕ := none
  d_period : Option ℕ := none
  std_dev : Option ℚ := none
deriving DecidableEq

/-- Entry `j` of a rational series, defaulting to `0` out of range (all
    uses are guarded by range facts). -/
def val0 (l : List ℚ) (j : ℕ) : ℚ := l[j]?.getD 0

/-- The trailing window of size `w` ending at position `i`:
    indices `i+1-w, …, i`. -/
def windowList (xs : List ℚ) (w i : ℕ) : List ℚ := (xs.drop (i + 1 - w)).take w

/-- Sum of the trailing window of size `w` ending at position `i`. -/
def windowSum (xs : List ℚ) (w i : ℕ) : ℚ := (windowList xs w i).sum

/-- `Series.rolling(window=w).mean()` with the default
    `min_periods = w`: position `i` holds the mean of the trailing `w`
    values when `i + 1 ≥ w`, and `NaN` (`none`) before that. -/
def rollingMean (w : ℕ) (xs : List ℚ) : List (Option ℚ) :=
  (List.range xs.length).map fun i =>
    if w ≤ i + 1 then some (windowSum xs w i / w) else none

/-- `Series.rolling(window=w).min()`. -/
def rollingMin (w : ℕ) (xs : List ℚ) : List (Option ℚ) :=
  (List.range xs.length).map fun i =>
    if w ≤ i + 1 then (windowList xs w i).min? else none

/-- `Series.rolling(window=w).max()`. -/
def rollingMax (w : ℕ) (xs : List ℚ) : List (Option ℚ) :=
  (List.range xs.length).map fun i =>
    if w ≤ i + 1 then (windowList xs w i).max? else none

/-- Sample variance (`ddof = 1`) of a list; meaningful for length ≥ 2. -/
def sampleVar (l : List ℚ) : ℚ :=
  (l.map fun x => (x - l.sum / (l.length : ℚ)) ^ 2).sum / ((l.length : ℚ) - 1)

/-- Mask and value of `Series.rolling(window=w).std()`, recorded through the
    variance (its square root is irrational in general, so band values are
    kept in component form, see `SeriesData.band`).  With `ddof = 1` a window
    of a single observation yields `NaN`, hence the `2 ≤ w` guard. -/
def rollingVar (w : ℕ) (xs : List ℚ) : List (Option ℚ) :=
  (List.range xs.length).map fun i =>
    if w ≤ i + 1 ∧ 2 ≤ w then some (sampleVar (windowList xs w i)) else none

/-- The window of an `Option`-valued series. -/
def windowListO (xs : List (Option ℚ)) (w i : ℕ) : List (Option ℚ) :=
  (xs.drop (i + 1 - w)).take w

/-- Rolling mean over a series that may already contain `NaN`s: a window
    containing a `NaN` yields `NaN` (pandas propagates it with the default
    `min_periods`). -/
def rollingMeanOpt (w : ℕ) (xs : List (Option ℚ)) : List (Option ℚ) :=
  (List.range xs.length).map fun i =>
    if w ≤ i + 1 ∧ (windowListO xs w i).all Option.isSome then
      some (((windowListO xs w i).filterMap id).sum / w)
    else none

/-- `close.diff()` turned into the gain series:
    `delta.where(delta > 0, 0)`.  The leading `NaN` of `diff()` fails the
    `> 0` test and is therefore replaced by `0` like any non-gain. -/
def gainList (xs : List ℚ) : List ℚ :=
  match xs with
  | [] => []
  | x :: rest =>
      0 :: List.zipWith (fun p c => if c - p > 0 then c - p else 0) (x :: rest) rest

/-- The loss series `-delta.where(delta < 0, 0)`. -/
def lossList (xs : List ℚ) : List ℚ :=
  match xs with
  | [] => []
  | x :: rest =>
      0 :: List.zipWith (fun p c => if c - p < 0 then -(c - p) else 0) (x :: rest) rest

/-- The RSI pipeline of the `rsi` branch of `add_indicators`:
    rolling means of gains and losses, `rs = avg_gain / avg_loss.replace(0, 1e-10)`,
    `rsi = 100 - (100 / (1 + rs))`. -/
def rsiList (xs : List ℚ) (w : ℕ) : List (Option ℚ) :=
  List.zipWith
    (fun g l =>
      match g, l with
      | some g, some l =>
          some (100 - 100 / (1 + g / (if l = 0 then 1 / 10 ^ 10 else l)))
      | _, _ => none)
    (rollingMean w (gainList xs)) (rollingMean w (lossList xs))

/-- `Series.ewm(span=s, adjust=False).mean()`: `α = 2/(s+1)`,
    `y₀ = x₀`, `yᵢ = (1-α)·yᵢ₋₁ + α·xᵢ`. -/
def emaList (s : ℕ) (xs : List ℚ) : List ℚ :=
  match xs with
  | [] => []
  | x :: rest =>
      let α : ℚ := 2 / ((s : ℚ) + 1)
      rest.scanl (fun e c => (1 - α) * e + α * c) x

/-- `MACD_line = EMA_fast - EMA_slow`. -/
def macdLine (xs : List ℚ) (fast slow : ℕ) : List ℚ :=
  List.zipWith (fun a b => a - b) (emaList fast xs) (emaList slow xs)

/-- `MACD_signal = MACD_line.ewm(span=signal, adjust=False).mean()`. -/
def macdSignal (xs : List ℚ) (fast slow signal : ℕ) : List ℚ :=
  emaList signal (macdLine xs fast slow)

/-- `MACD_histogram = MACD_line - MACD_signal`. -/
def macdHistogram (xs : List ℚ) (fast slow signal : ℕ) : List ℚ :=
  List.zipWith (fun a b => a - b) (macdLine xs fast slow) (macdSignal xs fast slow signal)

/-- The true-range series of the `atr` branch: row 0 has `NaN` in the
    shifted columns, and `DataFrame.max(axis=1)` skips `NaN`, leaving
    `|high - low|`; later rows take the max of the three ranges. -/
def trList (df : List Bar) : List ℚ :=
  match df with
  | [] => []
  | b :: rest =>
      abs (b.high - b.low) ::
        List.zipWith
          (fun p c =>
            max (abs (c.high - c.low)) (max (abs (c.high - p.close)) (abs (c.low - p.close))))
          (b :: rest) rest

/-- `%K = 100 * ((close - low_min) / (high_max - low_min))`.  Windows where
    every bar has `high = low` make the source produce `inf`/`NaN`; modelled
    with total rational division (no claim touches that degenerate case). -/
def stochK (highs lows closes : List ℚ) (k : ℕ) : List (Option ℚ) :=
  (List.range closes.length).map fun i =>
    if k ≤ i + 1 ∧ 1 ≤ k then
      some (100 * ((val0 closes i - ((windowList lows k i).min?.getD 0)) /
        (((windowList highs k i).max?.getD 0) - ((windowList lows k i).min?.getD 0))))
    else none

/-- Python `str.lower()` on an indicator name (character-wise ASCII
    lowering; all recognized names are ASCII). -/
def lowerName (s : String) : String := (s.toList.map Char.toLower).asString

/-- Effective window for the moving-average branches (`sma`, `ema`):
    `min(period, max(1, len(df) - 1))`. -/
def effectiveMA (p N : ℕ) : ℕ := min p (max 1 (N - 1))

/-- Effective window for the `rsi`, `atr`, `bollinger` and stochastic `%K`
    branches: `min(period, max(2, len(df) - 1))`. -/
def effectiveOsc (p N : ℕ) : ℕ := min p (max 2 (N - 1))

/-- Effective window of the stochastic `%D` smoothing:
    `min(d_period, max(1, len(df) - 1))`. -/
def effectiveStochD (d N : ℕ) : ℕ := min d (max 1 (N - 1))

/-- Data carried by one `make_addplot` call.  Band values
    `middle ± mult·√var` have irrational components over `ℚ`, so they are
    kept as (middle, variance, multiplier, upper?) tuples. -/
inductive SeriesData where
  | plain (vals : List (Option ℚ))
  | band (middle varr : List (Option ℚ)) (mult : ℚ) (upper : Bool)
deriving DecidableEq

/-- The dict built by `mpf.make_addplot`: its `panel` entry (default 0) and
    its data, plus the dataframe column it plots. -/
structure Plot where
  label : String
  panel : ℕ
  series : SeriesData
deriving DecidableEq

/-- One iteration of the indicator loop of `add_indicators` (lines 136-273):
    dispatch on the lowercase indicator name; every branch carries the
    data-sufficiency guards of the source.  The conjuncts requiring the
    window to be at least 1 model the fact that a window/span below 1 makes
    pandas raise (or produce no valid point), which the per-indicator
    `except` swallows: either way the branch contributes no plots. -/
def indicatorPlots (df : List Bar) (nm : String) (ps : IndParams) : List Plot :=
  let N := df.length
  let closes := df.map Bar.close
  let lname := lowerName nm
  if lname = "sma" then
    let period := ps.period.getD 20
    let eff := effectiveMA period N
    if 1 ≤ eff then
      let sma := rollingMean eff closes
      if sma.filterMap id ≠ [] then
        [{ label := "SMA_" ++ toString period, panel := 0, series := SeriesData.plain sma }]
      else []
    else []
  else if lname = "ema" then
    let period := ps.period.getD 20
    let eff := effectiveMA period N
    if 1 ≤ eff then
      let ema := emaList eff closes
      if ema ≠ [] then
        [{ label := "EMA_" ++ toString period, panel := 0,
           series := SeriesData.plain (ema.map some) }]
      else []
    else []
  else if lname = "rsi" then
    let period := ps.period.getD 14
    let eff := effectiveOsc period N
    if eff + 1 ≤ N ∧ 1 ≤ eff then
      let r := rsiList closes eff
      if r.filterMap id ≠ [] then
        [{ label := "RSI", panel := 2, series := SeriesData.plain r }]
      else []
    else []
  else if lname = "macd" then
    let fast := min (ps.fast.getD 12) (N / 4)
    let slow := min (ps.slow.getD 26) (N / 3)
    let signal := min (ps.signal.getD 9) (N / 5)
    if max fast (max slow signal) + 1 ≤ N ∧ 1 ≤ fast ∧ 1 ≤ slow ∧ 1 ≤ signal then
      let line := macdLine closes fast slow
      if line ≠ [] then
        [{ label := "MACD_line", panel := 3, series := SeriesData.plain (line.map some) },
         { label := "MACD_signal", panel := 3,
           series := SeriesData.plain ((macdSignal closes fast slow signal).map some) },
         { label := "MACD_histogram", panel := 3,
           series := SeriesData.plain ((macdHistogram closes fast slow signal).map some) }]
      else []
    else []
  else if lname = "bollinger" then
    let period := ps.period.getD 20
    let sd := ps.std_dev.getD 2
    let window := effectiveOsc period N
    if window ≤ N ∧ 1 ≤ window then
      let mid := rollingMean window closes
      let varr := rollingVar window closes
      if mid.filterMap id ≠ [] ∧ varr.filterMap id ≠ [] then
        [{ label := "BB_upper_" ++ toString period, panel := 0,
           series := SeriesData.band mid varr sd true },
         { label := "BB_middle_" ++ toString period, panel := 0,
           series := SeriesData.plain mid },
         { label := "BB_lower_" ++ toString period, panel := 0,
           series := SeriesData.band mid varr sd false }]
      else []
    else []
  else if lname = "atr" then
    let period := ps.period.getD 14
    let eff := effectiveOsc period N
    if eff + 1 ≤ N ∧ 1 ≤ eff then
      let atr := rollingMean eff (trList df)
      if atr.filterMap id ≠ [] then
        [{ label := "ATR", panel := 4, series := SeriesData.plain atr }]
      else []
    else []
  else if lname = "stochastic" then
    let kp := ps.k_period.getD 14
    let dp := ps.d_period.getD 3
    let effK := effectiveOsc kp N
    let effD := effectiveStochD dp N
    if effK + effD ≤ N ∧ 1 ≤ effK ∧ 1 ≤ effD then
      let kpc := stochK (df.map Bar.high) (df.map Bar.low) closes effK
      let dpc := rollingMeanOpt effD kpc
      if kpc.filterMap id ≠ [] ∧ dpc.filterMap id ≠ [] then
        [{ label := "STOCH_K", panel := 5, series := SeriesData.plain kpc },
         { label := "STOCH_D", panel := 5, series := SeriesData.plain dpc }]
      else []
    else []
  else []

/-- Lines 130-134: more than 8 requested indicators are cut down to the
    first 8 keys in mapping (insertion) order. -/
def limitIndicators (inds : List (String × IndParams)) : List (String × IndParams) :=
  if inds.length > 8 then inds.take 8 else inds

/-- `add_indicators` (lines 107-276): empty request and fewer than 5 bars
    short-circuit to no plots; otherwise the (possibly limited) indicators
    are processed in request order, appending each branch's plots. -/
def addIndicators (df : List Bar) (indicators : List (String × IndParams)) : List Plot :=
  if indicators.isEmpty then []
  else if df.length < 5 then []
  else ((limitIndicators indicators).map fun x => indicatorPlots df x.1 x.2).flatten

/-- Result of `getattr(plot, 'name', '')` (line 338): the objects in
    `addplots` are the dicts returned by `mpf.make_addplot`; no call ever
    passes a `name` kwarg and a dict's keys are not attributes, so the
    lookup always falls back to the default `''`. -/
def plotNameAttr (_p : Plot) : String := ""

/-- Result of `hasattr(plot, 'panel')` / `plot.panel` attribute access
    (lines 341 and 408): `False`/absent on a dict, whose `'panel'` key is
    not an attribute. -/
def plotPanelAttr (_p : Plot) : Option ℕ := none

/-- The oscillator families of lines 333 and 374, in source order. -/
def oscillatorTypes : List String := ["macd", "rsi", "atr", "stochastic"]

/-- The Python substring test `osc_type in plot_name`. -/
def strContainsSub (s pat : String) : Bool := decide (pat.toList <:+: s.toList)

/-- Append index `i` to the group of family `t`, creating the group at the
    end if it is new (Python dict insertion order). -/
def addToGroups (gs : List (String × List ℕ)) (t : String) (i : ℕ) :
    List (String × List ℕ) :=
  if gs.any (fun g => g.1 = t) then
    gs.map fun g => if g.1 = t then (g.1, g.2 ++ [i]) else g
  else gs ++ [(t, [i])]

/-- The grouping loop of lines 337-350: skip plots that (as attributes)
    already carry a panel, then match the `name` attribute against the
    oscillator families.  Both attribute lookups miss on the dicts, so the
    result is always the empty grouping. -/
def oscillatorGroups (addplots : List Plot) : List (String × List ℕ) :=
  addplots.enum.foldl
    (fun gs ip =>
      if (plotPanelAttr ip.2).isSome then gs
      else
        match oscillatorTypes.find? (fun t => strContainsSub (plotNameAttr ip.2) t) with
        | some t => addToGroups gs t ip.1
        | none => gs)
    []

/-- Set the panel of the plot at index `idx` (in the source this is the
    attribute assignment `addplots[idx].panel = panel_count`, which on a
    dict would raise `AttributeError`; it is unreachable because
    `oscillatorGroups` is always empty). -/
def setPanelAttr (plots : List Plot) (idx pc : ℕ) : List Plot :=
  plots.enum.map fun jp => if jp.1 = idx then { jp.2 with panel := pc } else jp.2

/-- The panel-reassignment pass of lines 352-359: walk the groups in
    insertion order, giving each the next panel starting at 2.  Returns the
    (in fact unchanged) plots and the final `panel_count`. -/
def regroupApply (plots : List Plot) : List Plot × ℕ :=
  (oscillatorGroups plots).foldl
    (fun acc g => (g.2.foldl (fun ps idx => setPanelAttr ps idx acc.2) acc.1, acc.2 + 1))
    (plots, 2)

/-- Lines 405-409: `max_panel` is the maximum over plots that have a
    `panel` *attribute*; the dicts have none, so it is always 0. -/
def maxPanelSeen (addplots : List Plot) : ℕ :=
  addplots.foldl
    (fun m p => match plotPanelAttr p with | some q => max m q | none => m) 0

/-- Lines 396-414: `panels_needed = 2` (main plus volume; `volume` is
    hard-coded `True` at line 318), and
    `total_panels = max(panels_needed, max_panel + 1)`. -/
def totalPanels (addplots : List Plot) : ℕ := max 2 (maxPanelSeen addplots + 1)

/-- Lines 416-424: main panel weight 4, every further panel weight 1. -/
def panelRatios (addplots : List Plot) : List ℕ :=
  4 :: List.replicate (totalPanels addplots - 1) 1

/-- The `/generate-chart` request (`ChartRequest`): pydantic rejects
    `data` longer than 500 items (`max_items=500`) before the handler
    runs, so a value of this type with more than 500 bars never reaches
    the code modelled below. -/
structure ChartRequest where
  data : List Bar
  chart_type : String := "candle"
  width : ℕ := 1200
  height : ℕ := 800
  indicators : Option (List (String × IndParams)) := none
  separate_oscillators : Bool := true
deriving DecidableEq

/-- Lines 296-299: over 400 bars, keep only `request.data[-400:]`
    (the most recent 400). -/
def truncateData (data : List Bar) : List Bar :=
  if data.length > 400 then data.drop (data.length - 400) else data

/-- Line 328: `add_indicators(df, request.indicators) if request.indicators
    else []` — `None` and the empty mapping are both falsy. -/
def requestPlots (df : List Bar) (indicators : Option (List (String × IndParams))) :
    List Plot :=
  match indicators with
  | some inds => if inds.isEmpty then [] else addIndicators df inds
  | none => []

/-- The plot directives handed to the renderer: the addplots after the
    reassignment pass, the volume panel choice (lines 392-393) and the
    `panel_ratios` entry (lines 396-424, only under
    `separate_oscillators`). -/
structure Layout where
  addplots : List Plot
  volumePanel : Option ℕ
  ratios : Option (List ℕ)
deriving DecidableEq

/-- The layout portion of `generate_chart` (lines 296-424). -/
def buildLayout (req : ChartRequest) : Layout :=
  let df := truncateData req.data
  let plots0 := requestPlots df req.indicators
  let hasInds : Bool := match req.indicators with
    | some inds => !inds.isEmpty
    | none => false
  let plots := if hasInds && req.separate_oscillators then (regroupApply plots0).1 else plots0
  { addplots := plots
    volumePanel := if req.separate_oscillators then some 1 else none
    ratios := if req.separate_oscillators then some (panelRatios plots) else none }

/-- The response metadata of lines 442-451 (the base64 image and timing
    fields are produced by the external renderer/clock and omitted). -/
structure ChartResult where
  success : Bool
  chart_type : String
  width : ℕ
  height : ℕ
  data_points : ℕ
  indicators_applied : List String
deriving DecidableEq

/-- `generate_chart` as seen by the caller: empty (post-truncation) data is
    a 400 error (line 306); otherwise the handler returns the metadata of
    lines 442-451.  `indicators_applied` is
    `list(request.indicators.keys()) if request.indicators else []`
    (line 449): the raw requested names, before any skipping. -/
def generateChart (req : ChartRequest) : Except String ChartResult :=
  let df := truncateData req.data
  if df.isEmpty then Except.error "Empty data provided"
  else
    Except.ok
      { success := true
        chart_type :=
          if req.chart_type ∈ ["candle", "line", "ohlc", "hollow_and_filled"] then
            req.chart_type
          else "candle"
        width := min req.width 1600
        height := min req.height 1200
        data_points := df.length
        indicators_applied :=
          match req.indicators with
          | some inds => inds.map Prod.fst
          | none => [] }

/-- The spec's effective-window formula `min(nominal, max(floor, N-1))`
    (stated in the spec's words, for comparison with the formulas the
    source uses). -/
def claimedEffectiveWindow (floor p N : ℕ) : ℕ := min p (max floor (N - 1))

/-- A flat test bar. -/
def bar0 : Bar := { open_ := 1, high := 1, low := 1, close := 1, volume := 0 }

/-- A bar whose four prices all equal `q`. -/
def mkBar (q : ℚ) : Bar := { open_ := q, high := q, low := q, close := q, volume := 0 }

/-- Twelve bars with strictly increasing closes 1, …, 12. -/
def bars12 : List Bar := (List.range 12).map fun i => mkBar ((i : ℚ) + 1)

/-- Six bars with strictly increasing closes 1, …, 6. -/
def bars6 : List Bar := (List.range 6).map fun i => mkBar ((i : ℚ) + 1)

/-- Request: 12 bars, MACD only, separate oscillator panels (default). -/
def reqC1 : ChartRequest := { data := bars12, indicators := some [("macd", {})] }

/-- Request: 6 bars, RSI only, separate oscillator panels (default). -/
def reqC8 : ChartRequest := { data := bars6, indicators := some [("rsi", {})] }

/-- Request: 6 flat bars, one unrecognized indicator name. -/
def reqC2 : ChartRequest :=
  { data := List.replicate 6 bar0, indicators := some [("supertrend", {})] }

/-- Request: 6 flat bars, one known and one unknown indicator. -/
def reqW2 : ChartRequest :=
  { data := List.replicate 6 bar0, indicators := some [("rsi", {}), ("nosuch", {})] }

/-- Request with only 4 bars. -/
def req4 : ChartRequest := { data := List.replicate 4 bar0 }

/-- Request with 401 bars (within the pydantic `max_items=500` bound). -/
def req401 : ChartRequest := { data := List.replicate 401 bar0 }

/-- Five strictly increasing closes (every delta is a gain). -/
def c3closes : List ℚ := [1, 2, 3, 4, 5]

/-- Indexing a `zipWith` is the pointwise `Option.map₂` of the two
    lookups. -/
theorem zipWith_getElemq {α β γ : Type} (f : α → β → γ) :
    ∀ (as : List α) (bs : List β) (i : ℕ),
      (List.zipWith f as bs)[i]? = Option.map₂ f as[i]? bs[i]?
  | [], _, _ => by simp [Option.map₂]
  | _ :: _, [], i => by simp [Option.map₂]
  | _ :: _, _ :: _, 0 => by simp [Option.map₂]
  | _ :: as, _ :: bs, (i + 1) => by simpa using zipWith_getElemq f as bs i

/-- A rolling mean is aligned with its input series. -/
theorem rollingMean_length (w : ℕ) (xs : List ℚ) :
    (rollingMean w xs).length = xs.length := by
  simp [rollingMean]

/-- Value of the rolling mean at an in-range index. -/
theorem rollingMean_getElemq (w : ℕ) (xs : List ℚ) (i : ℕ) (hi : i < xs.length) :
    (rollingMean w xs)[i]? =
      some (if w ≤ i + 1 then some (windowSum xs w i / w) else none) := by
  rw [rollingMean, List.getElem?_map, List.getElem?_range hi]
  rfl

/-- Counting the indices of `range n` whose window fits. -/
theorem countP_range_window (w n : ℕ) :
    (List.range n).countP (fun i => decide (w ≤ i + 1)) = n - (w - 1) := by
  induction n with
  | zero => simp
  | succ n ih =>
    rw [List.range_succ, List.countP_append, ih]
    by_cases hw : w ≤ n + 1 <;> simp [List.countP_cons, hw] <;> omega

/-- EMA is aligned with its input series. -/
theorem emaList_length (s : ℕ) (xs : List ℚ) : (emaList s xs).length = xs.length := by
  cases xs <;> simp [emaList, List.length_scanl]

/-- The MACD line is aligned with the closes. -/
theorem macdLine_length (xs : List ℚ) (fast slow : ℕ) :
    (macdLine xs fast slow).length = xs.length := by
  simp [macdLine, List.length_zipWith, emaList_length]

/-- The MACD signal is aligned with the closes. -/
theorem macdSignal_length (xs : List ℚ) (fast slow signal : ℕ) :
    (macdSignal xs fast slow signal).length = xs.length := by
  simp [macdSignal, emaList_length, macdLine_length]

/-- The MACD histogram is aligned with the closes. -/
theorem macdHistogram_length (xs : List ℚ) (fast slow signal : ℕ) :
    (macdHistogram xs fast slow signal).length = xs.length := by
  simp [macdHistogram, List.length_zipWith, macdLine_length, macdSignal_length]

/-- The gain series is aligned with the closes. -/
theorem gainList_length (xs : List ℚ) : (gainList xs).length = xs.length := by
  cases xs with
  | nil => rfl
  | cons x rest => simp [gainList, List.length_zipWith]

/-- The loss series is aligned with the closes. -/
theorem lossList_length (xs : List ℚ) : (lossList xs).length = xs.length := by
  cases xs with
  | nil => rfl
  | cons x rest => simp [lossList, List.length_zipWith]

/-- Position 0 of the gain series (the `NaN` of `diff()` replaced by 0). -/
theorem gainList_val0_zero (xs : List ℚ) : val0 (gainList xs) 0 = 0 := by
  cases xs <;> simp [gainList, val0]

/-- Position 0 of the loss series. -/
theorem lossList_val0_zero (xs : List ℚ) : val0 (lossList xs) 0 = 0 := by
  cases xs <;> simp [lossList, val0]

/-- Positive positions of the gain series: the positive part of the delta. -/
theorem gainList_val0_succ (xs : List ℚ) (j : ℕ) (h1 : 1 ≤ j) (h2 : j < xs.length) :
    val0 (gainList xs) j =
      if val0 xs j - val0 xs (j - 1) > 0 then val0 xs j - val0 xs (j - 1) else 0 := by
  cases xs with
  | nil => simp at h2
  | cons x rest =>
    obtain ⟨t, rfl⟩ : ∃ t, j = t + 1 := ⟨j - 1, by omega⟩
    have ht : t < rest.length := by
      simp at h2
      omega
    have hxt : t < (x :: rest).length := by
      simp
      omega
    have hgl : (gainList (x :: rest))[t + 1]?
        = (List.zipWith (fun p c => if c - p > 0 then c - p else 0) (x :: rest) rest)[t]? := by
      simp [gainList, List.getElem?_cons_succ]
    rw [val0, hgl, zipWith_getElemq, List.getElem?_eq_getElem hxt, List.getElem?_eq_getElem ht]
    have hcons : val0 (x :: rest) (t + 1) = rest[t] := by
      have hc1 : (x :: rest)[t + 1]? = rest[t]? := List.getElem?_cons_succ
      simp [val0, hc1, List.getElem?_eq_getElem ht]
    have hprev : val0 (x :: rest) t = (x :: rest)[t] := by
      simp [val0, List.getElem?_eq_getElem hxt]
    simp [Option.map₂, Nat.add_sub_cancel, hcons, hprev]

/-- Positive positions of the loss series: the negative part of the delta. -/
theorem lossList_val0_succ (xs : List ℚ) (j : ℕ) (h1 : 1 ≤ j) (h2 : j < xs.length) :
    val0 (lossList xs) j =
      if val0 xs j - val0 xs (j - 1) < 0 then -(val0 xs j - val0 xs (j - 1)) else 0 := by
  cases xs with
  | nil => simp at h2
  | cons x rest =>
    obtain ⟨t, rfl⟩ : ∃ t, j = t + 1 := ⟨j - 1, by omega⟩
    have ht : t < rest.length := by
      simp at h2
      omega
    have hxt : t < (x :: rest).length := by
      simp
      omega
    have hgl : (lossList (x :: rest))[t + 1]?
        = (List.zipWith (fun p c => if c - p < 0 then -(c - p) else 0) (x :: rest) rest)[t]? := by
      simp [lossList, List.getElem?_cons_succ]
    rw [val0, hgl, zipWith_getElemq, List.getElem?_eq_getElem hxt, List.getElem?_eq_getElem ht]
    have hcons : val0 (x :: rest) (t + 1) = rest[t] := by
      have hc1 : (x :: rest)[t + 1]? = rest[t]? := List.getElem?_cons_succ
      simp [val0, hc1, List.getElem?_eq_getElem ht]
    have hprev : val0 (x :: rest) t = (x :: rest)[t] := by
      simp [val0, List.getElem?_eq_getElem hxt]
    simp [Option.map₂, Nat.add_sub_cancel, hcons, hprev]

/-- Gains are never negative. -/
theorem gainList_val0_nonneg (xs : List ℚ) (j : ℕ) : 0 ≤ val0 (gainList xs) j := by
  rcases Nat.lt_or_ge j (gainList xs).length with h | h
  · rcases Nat.eq_zero_or_pos j with rfl | hj
    · rw [gainList_val0_zero]
    · have hlen : j < xs.length := by rw [gainList_length] at h; exact h
      rw [gainList_val0_succ xs j hj hlen]
      split
      · rename_i hc; linarith
      · exact le_refl 0
  · simp [val0, List.getElem?_eq_none_iff.mpr h]

/-- Losses are never negative. -/
theorem lossList_val0_nonneg (xs : List ℚ) (j : ℕ) : 0 ≤ val0 (lossList xs) j := by
  rcases Nat.lt_or_ge j (lossList xs).length with h | h
  · rcases Nat.eq_zero_or_pos j with rfl | hj
    · rw [lossList_val0_zero]
    · have hlen : j < xs.length := by rw [lossList_length] at h; exact h
      rw [lossList_val0_succ xs j hj hlen]
      split
      · rename_i hc; linarith
      · exact le_refl 0
  · simp [val0, List.getElem?_eq_none_iff.mpr h]

/-- A trailing window's sum as a finite sum of its entries. -/
theorem window_sum_val0 (xs : List ℚ) (a w : ℕ) (h : a + w ≤ xs.length) :
    ((xs.drop a).take w).sum = ∑ t ∈ Finset.range w, val0 xs (a + t) := by
  induction w with
  | zero => simp
  | succ w ih =>
    have hw : a + w ≤ xs.length := by omega
    have hlt : a + w < xs.length := by omega
    rw [List.take_succ, List.sum_append, ih hw, Finset.sum_range_succ]
    rw [List.getElem?_drop xs a w, List.getElem?_eq_getElem hlt]
    simp [val0, List.getElem?_eq_getElem hlt]

/-- The RSI series is aligned with the closes. -/
theorem rsiList_length (xs : List ℚ) (w : ℕ) : (rsiList xs w).length = xs.length := by
  simp [rsiList, List.length_zipWith, rollingMean_length, gainList_length, lossList_length]

/-- Value of the RSI series at an in-range index: `NaN` until the window
    fills, then `100 - 100/(1 + rs)` with the epsilon-floored denominator. -/
theorem rsiList_getElemq (xs : List ℚ) (w i : ℕ) (hi : i < xs.length) :
    (rsiList xs w)[i]? =
      some (if w ≤ i + 1 then
        some (100 - 100 / (1 + (windowSum (gainList xs) w i / w) /
          (if windowSum (lossList xs) w i / w = 0 then 1 / 10 ^ 10
           else windowSum (lossList xs) w i / w)))
      else none) := by
  have hg : i < (gainList xs).length := by rw [gainList_length]; exact hi
  have hl : i < (lossList xs).length := by rw [lossList_length]; exact hi
  rw [rsiList, zipWith_getElemq, rollingMean_getElemq w _ i hg, rollingMean_getElemq w _ i hl]
  by_cases hw : w ≤ i + 1 <;> simp [hw, Option.map₂]

/-- C5: for every bar table large enough for any indicator to be computed
    (`len(df) ≥ 5`; below that `add_indicators` returns before any window is
    formed), the effective windows the source uses for SMA/EMA (floor 1) and
    for RSI/ATR/Stochastic (floor 2, `%K` and `%D` alike) coincide with the
    spec formula `min(nominal, max(floor, N-1))`.  The `%D` branch literally
    computes `min(d_period, max(1, len(df)-1))`, which equals the floor-2
    formula for every reachable `N`. -/
theorem effective_window_matches_spec (p d N : ℕ) (h : 5 ≤ N) :
    effectiveMA p N = claimedEffectiveWindow 1 p N ∧
    effectiveOsc p N = claimedEffectiveWindow 2 p N ∧
    effectiveStochD d N = claimedEffectiveWindow 2 d N := by
  refine ⟨rfl, rfl, ?_⟩
  simp only [effectiveStochD, claimedEffectiveWindow]
  omega

/-- Witness for `effective_window_matches_spec` at `N = 10`. -/
theorem effective_window_matches_spec_witness :
    effectiveMA 20 10 = claimedEffectiveWindow 1 20 10 ∧
    effectiveOsc 14 10 = claimedEffectiveWindow 2 14 10 ∧
    effectiveStochD 3 10 = claimedEffectiveWindow 2 3 10 :=
  effective_window_matches_spec 20 3 10 (by decide)

/-- C6: a request with more than 8 indicators is cut to exactly its first 8
    entries in request order, and the whole computation proceeds as if only
    those 8 had been requested (no error for the dropped tail). -/
theorem first_eight_indicators (df : List Bar) (inds : List (String × IndParams))
    (h : 8 < inds.length) :
    limitIndicators inds = inds.take 8 ∧
    addIndicators df inds = addIndicators df (inds.take 8) := by
  have hlim : limitIndicators inds = inds.take 8 := by
    unfold limitIndicators
    rw [if_pos h]
  have hne : inds.isEmpty = false := by
    cases inds with
    | nil => simp at h
    | cons a l => rfl
  have hne8 : (inds.take 8).isEmpty = false := by
    have h8 : (inds.take 8).length = 8 := by
      rw [List.length_take]; omega
    cases htake : inds.take 8 with
    | nil => rw [htake] at h8; simp at h8
    | cons a l => rfl
  have hlim8 : limitIndicators (inds.take 8) = inds.take 8 := by
    unfold limitIndicators
    rw [if_neg]
    rw [List.length_take]
    omega
  refine ⟨hlim, ?_⟩
  unfold addIndicators
  rw [hne, hne8, hlim, hlim8]

/-- Witness for `first_eight_indicators`: nine requested indicators. -/
theorem first_eight_indicators_witness :
    limitIndicators
        [("i1", {}), ("i2", {}), ("i3", {}), ("i4", {}), ("i5", {}), ("i6", {}),
         ("i7", {}), ("i8", {}), ("i9", {})] =
      List.take 8
        [("i1", {}), ("i2", {}), ("i3", {}), ("i4", {}), ("i5", {}), ("i6", {}),
         ("i7", {}), ("i8", {}), ("i9", {})] ∧
    addIndicators (List.replicate 6 bar0)
        [("i1", {}), ("i2", {}), ("i3", {}), ("i4", {}), ("i5", {}), ("i6", {}),
         ("i7", {}), ("i8", {}), ("i9", {})] =
      addIndicators (List.replicate 6 bar0)
        (List.take 8
          [("i1", {}), ("i2", {}), ("i3", {}), ("i4", {}), ("i5", {}), ("i6", {}),
           ("i7", {}), ("i8", {}), ("i9", {})]) :=
  first_eight_indicators (List.replicate 6 bar0) _ (by decide)

/-- C10: with fewer than 5 bars, `add_indicators` returns no plots for any
    request, and the built layout contains no indicator series. -/
theorem insufficient_bars_no_plots (req : ChartRequest) (inds : List (String × IndParams))
    (h : req.data.length < 5) :
    addIndicators req.data inds = [] ∧ (buildLayout req).addplots = [] := by
  have hadd : ∀ l : List (String × IndParams), addIndicators req.data l = [] := by
    intro l
    simp [addIndicators, h]
  have htr : truncateData req.data = req.data := by
    unfold truncateData
    rw [if_neg]
    omega
  have hplots : requestPlots (truncateData req.data) req.indicators = [] := by
    rw [htr]
    cases req.indicators with
    | none => rfl
    | some l => simp [requestPlots, hadd l]
  refine ⟨hadd inds, ?_⟩
  have hreg : (regroupApply ([] : List Plot)).1 = [] := rfl
  simp only [buildLayout, hplots]
  split <;> rfl

/-- Witness for `insufficient_bars_no_plots`: 4 bars. -/
theorem insufficient_bars_no_plots_witness :
    addIndicators req4.data [("sma", ({} : IndParams))] = [] ∧
    (buildLayout req4).addplots = [] :=
  insufficient_bars_no_plots req4 [("sma", {})] (by decide)

/-- C7: a (pydantic-valid) request with more than 400 bars keeps exactly the
    most recent 400 (tail of the list) before any computation, and the
    request is not rejected: the handler returns a success result reporting
    400 data points. -/
theorem cap_tail_truncation (req : ChartRequest) (hval : req.data.length ≤ 500)
    (hover : 400 < req.data.length) :
    truncateData req.data = req.data.drop (req.data.length - 400) ∧
    (truncateData req.data).length = 400 ∧
    Except.map (fun r => (r.data_points, r.success)) (generateChart req) =
      Except.ok (400, true) := by
  have ht : truncateData req.data = req.data.drop (req.data.length - 400) := by
    unfold truncateData
    rw [if_pos hover]
  have hlen : (truncateData req.data).length = 400 := by
    rw [ht, List.length_drop]
    omega
  have hne : (truncateData req.data).isEmpty = false := by
    cases hd : truncateData req.data with
    | nil => rw [hd] at hlen; simp at hlen
    | cons a l => rfl
  refine ⟨ht, hlen, ?_⟩
  simp [generateChart, hne, hlen, Except.map]

/-- Witness for `cap_tail_truncation`: 401 bars. -/
theorem cap_tail_truncation_witness :
    truncateData req401.data = req401.data.drop (req401.data.length - 400) ∧
    (truncateData req401.data).length = 400 ∧
    Except.map (fun r => (r.data_points, r.success)) (generateChart req401) =
      Except.ok (400, true) :=
  cap_tail_truncation req401 (by norm_num [req401]) (by norm_num [req401])

/-- C2 (amended): `indicators_applied` is the full list of requested
    indicator names in request order — unrecognized and skipped names
    included — and the request succeeds whenever the (truncated) bar table
    is nonempty. -/
theorem applied_list_is_request_keys (req : ChartRequest)
    (h : truncateData req.data ≠ []) :
    Except.map (fun r => (r.success, r.indicators_applied)) (generateChart req) =
      Except.ok
        (true,
          (match req.indicators with
           | some inds => inds.map Prod.fst
           | none => [])) := by
  have hne : (truncateData req.data).isEmpty = false := by
    cases hd : truncateData req.data with
    | nil => exact absurd hd h
    | cons a l => rfl
  simp [generateChart, hne, Except.map]

/-- Witness for `applied_list_is_request_keys`: one known and one unknown
    indicator; both names are reported. -/
theorem applied_list_is_request_keys_witness :
    Except.map (fun r => (r.success, r.indicators_applied)) (generateChart reqW2) =
      Except.ok
        (true,
          (match reqW2.indicators with
           | some inds => inds.map Prod.fst
           | none => [])) :=
  applied_list_is_request_keys reqW2 (by decide)

/-- C2 (counterexample): requesting only the unrecognized indicator
    `"supertrend"` computes no plots at all, yet `indicators_applied`
    still lists `"supertrend"` — the claim that unrecognized or skipped
    names are absent from the list is false. -/
theorem applied_list_counterexample :
    Except.map (fun r => r.indicators_applied) (generateChart reqC2) =
      Except.ok ["supertrend"] ∧
    addIndicators (truncateData reqC2.data) [("supertrend", ({} : IndParams))] = [] :=
  ⟨rfl, by decide⟩

/-- C1 (code evaluated at the failing input): for the MACD-only request
    `reqC1` with separate oscillator panels, the reassignment pass of lines
    331-359 matches attribute lookups against `make_addplot` dicts and
    therefore never fires: the three MACD plots stay on their hard-coded
    panel 3 (not panel 2, the first free index), and `total_panels` is
    computed as 2 (not 3 = main + volume + one oscillator family). -/
theorem oscillator_panels_not_reassigned :
    (buildLayout reqC1).addplots.map Plot.panel = [3, 3, 3] ∧
    totalPanels (buildLayout reqC1).addplots = 2 := by
  constructor <;> decide

/-- C8 (code evaluated at the failing input): for the RSI-only request
    `reqC8`, the RSI series is plotted on panel 2, yet `panel_ratios` is
    `(4, 1)` of length 2 — not one ratio per used panel index up to the
    highest (which would need length 3). -/
theorem panel_ratios_ignore_plot_panels :
    (buildLayout reqC8).ratios = some [4, 1] ∧
    (buildLayout reqC8).addplots.map Plot.panel = [2] := by
  constructor <;> decide

/-- C9: the SMA series (`rolling(window=w).mean()` over the closes, as the
    `sma` branch computes it) with effective window `w ≥ 1` over `N` closes
    has exactly `max 0 (N - w + 1)` valid (non-`NaN`) points, and every
    valid point is the arithmetic mean of the trailing window of exactly
    `w` closes ending at that position. -/
theorem sma_valid_points (xs : List ℚ) (w : ℕ) (hw : 1 ≤ w) :
    (((rollingMean w xs).countP Option.isSome : ℕ) : ℤ) =
      max 0 ((xs.length : ℤ) - w + 1) ∧
    ∀ i : ℕ, i < xs.length → w ≤ i + 1 →
      (rollingMean w xs)[i]? = some (some (windowSum xs w i / w)) ∧
      (windowList xs w i).length = w := by
  constructor
  · have h1 : (rollingMean w xs).countP Option.isSome
        = (List.range xs.length).countP (fun i => decide (w ≤ i + 1)) := by
      rw [rollingMean, List.countP_map]
      refine List.countP_congr ?_
      intro i _
      by_cases h : w ≤ i + 1 <;> simp [h, Function.comp]
    rw [h1, countP_range_window]
    omega
  · intro i hi hwi
    refine ⟨?_, ?_⟩
    · rw [rollingMean_getElemq w xs i hi, if_pos hwi]
    · simp only [windowList, List.length_take, List.length_drop]
      omega

/-- Witness for `sma_valid_points`: five closes, window 2. -/
theorem sma_valid_points_witness :
    (((rollingMean 2 c3closes).countP Option.isSome : ℕ) : ℤ) =
      max 0 ((c3closes.length : ℤ) - 2 + 1) ∧
    ∀ i : ℕ, i < c3closes.length → 2 ≤ i + 1 →
      (rollingMean 2 c3closes)[i]? = some (some (windowSum c3closes 2 i / 2)) ∧
      (windowList c3closes 2 i).length = 2 :=
  sma_valid_points c3closes 2 (by decide)

/-- C4: at every aligned index, the MACD histogram value is exactly the
    MACD line value minus the MACD signal value, and the three series are
    aligned (all have the length of the close series). -/
theorem macd_histogram_is_line_minus_signal (xs : List ℚ) (fast slow signal : ℕ) :
    (macdHistogram xs fast slow signal).length = xs.length ∧
    ∀ i : ℕ, (macdHistogram xs fast slow signal)[i]? =
      Option.map₂ (fun a b => a - b) (macdLine xs fast slow)[i]?
        (macdSignal xs fast slow signal)[i]? :=
  ⟨macdHistogram_length xs fast slow signal, fun i => zipWith_getElemq _ _ _ i⟩

/-- C3 (amended): every valid RSI value lies in `[0, 100)`; it equals
    exactly 0 when every delta in the trailing window is a loss; and when
    every delta in the window is a gain the epsilon-floored denominator
    gives `100 - 100/(1 + avg_gain·10¹⁰)` — close to, but strictly below,
    100. -/
theorem rsi_bounds (xs : List ℚ) (w i : ℕ) (v : ℚ) (hw : 1 ≤ w)
    (hv : (rsiList xs w)[i]? = some (some v)) :
    (0 ≤ v ∧ v < 100) ∧
    ((∀ j, i + 1 - w ≤ j → j ≤ i → 1 ≤ j → val0 xs j < val0 xs (j - 1)) → v = 0) ∧
    ((∀ j, i + 1 - w ≤ j → j ≤ i → 1 ≤ j → val0 xs (j - 1) < val0 xs j) →
      v = 100 - 100 / (1 + windowSum (gainList xs) w i / w * 10 ^ 10)) := by
  have hi : i < xs.length := by
    by_contra hcon
    push_neg at hcon
    have hnone : (rsiList xs w)[i]? = none :=
      List.getElem?_eq_none_iff.mpr (by rw [rsiList_length]; exact hcon)
    rw [hnone] at hv
    exact Option.noConfusion hv
  rw [rsiList_getElemq xs w i hi] at hv
  by_cases hwi : w ≤ i + 1
  swap
  · rw [if_neg hwi] at hv
    simp at hv
  rw [if_pos hwi] at hv
  simp only [Option.some.injEq] at hv
  subst hv
  set G := windowSum (gainList xs) w i with hG
  set L := windowSum (lossList xs) w i with hL
  have hGnn : 0 ≤ G := by
    rw [hG, windowSum, windowList, window_sum_val0 _ _ _ (by rw [gainList_length]; omega)]
    exact Finset.sum_nonneg fun t _ => gainList_val0_nonneg xs (i + 1 - w + t)
  have hLnn : 0 ≤ L := by
    rw [hL, windowSum, windowList, window_sum_val0 _ _ _ (by rw [lossList_length]; omega)]
    exact Finset.sum_nonneg fun t _ => lossList_val0_nonneg xs (i + 1 - w + t)
  have hwQ : (0 : ℚ) < w := by
    have : 0 < w := by omega
    exact_mod_cast this
  set D := (if L / w = 0 then (1 : ℚ) / 10 ^ 10 else L / w) with hD
  have hDpos : 0 < D := by
    rw [hD]
    split
    · norm_num
    · rename_i hne
      have h0 : 0 ≤ L / w := div_nonneg hLnn hwQ.le
      exact lt_of_le_of_ne h0 (Ne.symm hne)
  have hrs : 0 ≤ G / w / D := div_nonneg (div_nonneg hGnn hwQ.le) hDpos.le
  have h1rs : (0 : ℚ) < 1 + G / w / D := by linarith
  have hfrac_pos : 0 < 100 / (1 + G / w / D) := by positivity
  have hfrac_le : 100 / (1 + G / w / D) ≤ 100 := div_le_self (by norm_num) (by linarith)
  refine ⟨⟨by linarith, by linarith⟩, ?_, ?_⟩
  · intro hall
    have hGz : G = 0 := by
      rw [hG, windowSum, windowList, window_sum_val0 _ _ _ (by rw [gainList_length]; omega)]
      refine Finset.sum_eq_zero ?_
      intro t ht
      have htw : t < w := Finset.mem_range.mp ht
      rcases Nat.eq_zero_or_pos (i + 1 - w + t) with hz | hpos
      · rw [hz, gainList_val0_zero]
      · have hlt : i + 1 - w + t < xs.length := by omega
        have hless := hall (i + 1 - w + t) (by omega) (by omega) hpos
        rw [gainList_val0_succ xs _ hpos hlt, if_neg (by linarith)]
    rw [hGz]
    norm_num
  · intro hall
    have hLz : L = 0 := by
      rw [hL, windowSum, windowList, window_sum_val0 _ _ _ (by rw [lossList_length]; omega)]
      refine Finset.sum_eq_zero ?_
      intro t ht
      have htw : t < w := Finset.mem_range.mp ht
      rcases Nat.eq_zero_or_pos (i + 1 - w + t) with hz | hpos
      · rw [hz, lossList_val0_zero]
      · have hlt : i + 1 - w + t < xs.length := by omega
        have hmore := hall (i + 1 - w + t) (by omega) (by omega) hpos
        rw [lossList_val0_succ xs _ hpos hlt, if_neg (by linarith)]
    have hDeps : D = 1 / 10 ^ 10 := by
      rw [hD, hLz]
      simp
    have hrw : G / (w : ℚ) / (1 / 10 ^ 10) = G / w * 10 ^ 10 := by
      rw [one_div, div_eq_mul_inv (G / (w : ℚ)), inv_inv]
    rw [hDeps, hrw]

/-- The concrete RSI value at the end of `c3closes` with the effective
    window 4 that the source uses for the default period 14 on 5 bars. -/
theorem rsi_c3_value :
    (rsiList c3closes 4)[4]? = some (some ((1000000000000 : ℚ) / 10000000001)) := by
  rw [rsiList_getElemq c3closes 4 4 (by decide)]
  norm_num [windowSum, windowList, gainList, lossList, c3closes]

/-- C3 (counterexample): on 5 strictly increasing closes, every delta in
    the trailing window is a gain, yet the RSI value the code computes is
    `10¹²/(10¹⁰+1) ≠ 100`: the epsilon floor on the loss average keeps RSI
    strictly below 100, so the claim "RSI equals exactly 100 whenever all
    deltas in the window are gains" is false. -/
theorem rsi_all_gains_below_100 :
    (∀ j, j < 5 → 1 ≤ j → val0 c3closes (j - 1) < val0 c3closes j) ∧
    effectiveOsc 14 c3closes.length = 4 ∧
    (rsiList c3closes 4)[4]? = some (some ((1000000000000 : ℚ) / 10000000001)) ∧
    ((1000000000000 : ℚ) / 10000000001) ≠ 100 :=
  ⟨by decide, by decide, rsi_c3_value, by norm_num⟩

/-- Witness for `rsi_bounds` at the concrete input of `rsi_c3_value`. -/
theorem rsi_bounds_witness :
    (0 ≤ (1000000000000 : ℚ) / 10000000001 ∧
      (1000000000000 : ℚ) / 10000000001 < 100) ∧
    ((∀ j, 4 + 1 - 4 ≤ j → j ≤ 4 → 1 ≤ j →
        val0 c3closes j < val0 c3closes (j - 1)) →
      (1000000000000 : ℚ) / 10000000001 = 0) ∧
    ((∀ j, 4 + 1 - 4 ≤ j → j ≤ 4 → 1 ≤ j →
        val0 c3closes (j - 1) < val0 c3closes j) →
      (1000000000000 : ℚ) / 10000000001 =
        100 - 100 / (1 + windowSum (gainList c3closes) 4 4 / ((4 : ℕ) : ℚ) * 10 ^ 10)) :=
  rsi_bounds c3closes 4 4 _ (by decide) rsi_c3_value

end ChartEngine
